import Mathlib

/-!
# CV analysis gateway (js402/me, `backend/`)

A shallow embedding of the Go backend: bearer-identity extraction
(`middleware/auth.go`), the analysis cache over the `cv_analyses` table
(`services/supabase.go`), the generator request (`services/openai.go`) and the
request handler (`handlers/analyze.go`), wired as in `main.go`.

External collaborators are inputs of the model: the library functions
(`base64`, `encoding/json`, `sha256`, `time.Format`, and the reading of an `Eq`
filter by the store) are fields of `Env`, the chat backend is a function, and
the table is a list of rows together with the outcome of the one `Execute` call
a request makes.
-/

namespace Backend

/-! ## Strings -/

/-- Splitting a character list at every occurrence of `sep`: the pieces between
separators, in order; `n` separators give `n + 1` pieces. -/
def splitChars (sep : Char) : List Char → List (List Char)
  | [] => [[]]
  | c :: cs =>
    if c = sep then [] :: splitChars sep cs
    else
      match splitChars sep cs with
      | [] => [[c]]
      | w :: ws => (c :: w) :: ws

/-- Go `strings.Split(s, sep)` for a one-character separator (the source calls
it with `" "` and `"."` only). -/
def Split (s : String) (sep : Char) : List String :=
  (splitChars sep s.data).map String.mk

/-! ## Library interface -/

/-- Go `time.Time`, as an instant counted in seconds. -/
abbrev Time := Nat

/-- Raw bytes (`[]byte`). -/
abbrev Bytes := List Nat

/-- A decoded JSON value, as `encoding/json` stores it in an `interface{}`. -/
inductive JSONValue where
  | null
  | bool (b : Bool)
  | number (digits : String)
  | string (s : String)
  | array (items : List JSONValue)
  | object (fields : List (String × JSONValue))

/-- Go `map[string]interface{}`: the nil map is the empty list, and a key is
looked up by `List.lookup`. -/
abbrev Claims := List (String × JSONValue)

/-- The library functions the backend calls. -/
structure Env where
  /-- The value of `base64.RawURLEncoding.DecodeString`. -/
  base64RawURLDecode : String → Except String Bytes
  /-- The value of `json.Unmarshal(payload, &claims)` for a nil `claims` map: an error, or the
  map afterwards (still nil for the JSON text `null`). -/
  jsonUnmarshal : Bytes → Except String Claims
  /-- The value of `hex.EncodeToString(sha256.Sum256([]byte(s))[:])`. -/
  sha256Hex : String → String
  /-- The value of `t.Format(layout)`. -/
  timeFormat : Time → String → String
  /-- The operand of a filter `Eq(column, value)`: the client library writes `value` as it is
  into the query string of the request, and the store compares the column with what it reads
  back from there. -/
  eqOperand : String → String

/-- The message of `http.ErrNoCookie`, the generic error the source returns. -/
def ErrNoCookie : String := "http: named cookie not present"

/-- The layout constant `time.RFC3339`. -/
def RFC3339 : String := "2006-01-02T15:04:05Z07:00"

/-! ## middleware/auth.go -/

/-- Decoding of the payload segment once the token is known to have three
segments (`auth.go`, lines 48-63). -/
def subOfPayload (env : Env) (payload : String) : Except String String :=
  match env.base64RawURLDecode payload with
  | .error e => .error e
  | .ok bytes =>
    match env.jsonUnmarshal bytes with
    | .error e => .error e
    | .ok claims =>
      match claims.lookup "sub" with
      | some (.string sub) => .ok sub
      | _ => .error ErrNoCookie

/-- The function `extractUserIDFromJWT`. -/
def extractUserIDFromJWT (env : Env) (tokenString : String) : Except String String :=
  let parts := Split tokenString '.'
  if parts.length ≠ 3 then .error ErrNoCookie
  else subOfPayload env (parts.getD 1 "")

/-! ## models/cv.go -/

/-- A row of the `cv_analyses` table. -/
structure CVAnalysis where
  ID : String
  UserID : String
  CVHash : String
  CVContent : String
  Filename : String
  Analysis : String
  CreatedAt : Time
  UpdatedAt : Time
  deriving DecidableEq

/-- The request body after binding; `CVContent` carries `binding:"required"`. -/
structure AnalyzeRequest where
  CVContent : String
  Prompt : String
  deriving DecidableEq

/-- The success body; empty `CachedAt`, `Filename` and `Error` are omitted on the wire. -/
structure AnalyzeResponse where
  Analysis : String
  FromCache : Bool
  CachedAt : String
  Filename : String
  Error : String
  deriving DecidableEq

/-! ## services/supabase.go -/

/-- The `cv_analyses` table as one call of the service meets it: its rows, and the
error of the call's `Execute` when the request to the store fails. -/
structure SupabaseService where
  rows : List CVAnalysis
  execErr : Option String

/-- What the store decides when it writes a row: the generated columns, and whether
the written row is sent back in the reply. -/
structure InsertReply where
  ID : String
  CreatedAt : Time
  UpdatedAt : Time
  returnsRow : Bool

/-- The query `Select("*").Eq("user_id", userID).Eq("cv_hash", cvHash)` as the store answers
it: the rows whose two columns equal the operands the store reads from the two filters, in
table order. -/
def selectEq (env : Env) (rows : List CVAnalysis) (userID cvHash : String) : List CVAnalysis :=
  rows.filter (fun r =>
    decide (r.UserID = env.eqOperand userID) && decide (r.CVHash = env.eqOperand cvHash))

/-- The method `GetCachedAnalysis`, returning the Go pair `(*CVAnalysis, error)`: the first
row of the answer, as the store gives it. -/
def GetCachedAnalysis (env : Env) (s : SupabaseService) (userID cvHash : String) :
    Option CVAnalysis × Option String :=
  match s.execErr with
  | some err => (none, some err)
  | none =>
    match selectEq env s.rows userID cvHash with
    | [] => (none, none)
    | r :: _ => (some r, none)

/-- The row the store keeps for an inserted value: the columns sent, with the
generated columns filled in by the store. -/
def storedRow (db : InsertReply) (newAnalysis : CVAnalysis) : CVAnalysis :=
  { newAnalysis with ID := db.ID, CreatedAt := db.CreatedAt, UpdatedAt := db.UpdatedAt }

/-- The method `StoreAnalysis`: the Go pair `(*CVAnalysis, error)` and the rows of
the table afterwards. The row travels in the JSON body of the request, so its columns are
kept as sent. A failed request writes nothing. -/
def StoreAnalysis (s : SupabaseService) (db : InsertReply)
    (userID cvHash cvContent filename analysis : String) :
    (Option CVAnalysis × Option String) × List CVAnalysis :=
  let newAnalysis : CVAnalysis :=
    { ID := "", UserID := userID, CVHash := cvHash, CVContent := cvContent,
      Filename := filename, Analysis := analysis, CreatedAt := 0, UpdatedAt := 0 }
  match s.execErr with
  | some err => ((none, some err), s.rows)
  | none =>
    let results := if db.returnsRow then [storedRow db newAnalysis] else []
    match results with
    | [] => ((none, some "failed to insert analysis"), s.rows ++ [storedRow db newAnalysis])
    | r :: _ => ((some r, none), s.rows ++ [storedRow db newAnalysis])

/-! ## services/openai.go -/

def DefaultModel : String := "gpt-4o-mini"

def SystemPrompt : String :=
  "You are an expert career advisor and technical recruiter with deep knowledge of the tech industry. \nYour role is to analyze CVs/resumes and provide actionable, personalized career guidance.\n\nWhen analyzing a CV, you should:\n1. Identify the candidate's current level (junior, mid, senior, lead, etc.)\n2. Highlight key strengths and technical skills\n3. Identify areas for improvement or skill gaps\n4. Suggest specific next steps for career advancement\n5. Recommend relevant technologies or certifications to learn\n6. Provide insights on market demand for their skill set\n7. Suggest potential career paths or role transitions\n\nBe specific, actionable, and encouraging in your feedback. Focus on practical advice that the candidate can implement."

structure ChatCompletionMessage where
  Role : String
  Content : String
  deriving DecidableEq

/-- The request sent to the chat backend; `Temperature` holds the decimal literal
of the source constant. -/
structure ChatCompletionRequest where
  Model : String
  Messages : List ChatCompletionMessage
  Temperature : String
  MaxTokens : Nat
  deriving DecidableEq

/-- The chat backend: `client x` is what `CreateChatCompletion` returns for the
request `x`, an error or the messages of `resp.Choices`. -/
structure OpenAIService where
  client : ChatCompletionRequest → Except String (List ChatCompletionMessage)

/-- A Go call returning `(string, error)`, or panicking. -/
inductive Outcome where
  | ok (text : String)
  | err (e : String)
  | panic (msg : String)
  deriving DecidableEq

/-- The user message `AnalyzeCV` sends (`openai.go`, lines 36-39). -/
def userMessage (cvContent userPrompt : String) : String :=
  if userPrompt = "" then
    "Please analyze the following CV and provide detailed career guidance:\n\n" ++ cvContent
  else userPrompt

/-- The request `AnalyzeCV` builds (`openai.go`, lines 41-58). -/
def chatRequest (cvContent userPrompt : String) : ChatCompletionRequest :=
  { Model := DefaultModel
    Messages :=
      [ { Role := "system", Content := SystemPrompt },
        { Role := "user", Content := userMessage cvContent userPrompt } ]
    Temperature := "0.7"
    MaxTokens := 2000 }

/-- The method `AnalyzeCV`; `resp.Choices[0]` panics on an empty list. -/
def AnalyzeCV (s : OpenAIService) (cvContent userPrompt : String) : Outcome :=
  match s.client (chatRequest cvContent userPrompt) with
  | .error e => .err e
  | .ok [] => .panic "runtime error: index out of range [0] with length 0"
  | .ok (m :: _) => .ok m.Content

/-! ## handlers/analyze.go -/

/-- The JSON body of the request as `encoding/json` reads it into `AnalyzeRequest`:
a decoding error, or the two fields, `none` for a key that is absent. -/
inductive RequestBody where
  | malformed (err : String)
  | object (cvContent : Option String) (prompt : Option String)
  deriving DecidableEq

/-- The part of `gin.Context` the backend reads: the `Authorization` header as
`c.GetHeader` returns it (empty when absent), the body, and the key `userID`. -/
structure Context where
  Authorization : String
  body : RequestBody
  userID : Option String
  deriving DecidableEq

/-- The body written by `c.JSON`: an `AnalyzeResponse` or a `gin.H` of strings. -/
inductive Payload where
  | analysis (r : AnalyzeResponse)
  | H (fields : List (String × String))
  deriving DecidableEq

/-- What the caller gets: a status with a JSON body, or the panic of the handler. -/
inductive Reply where
  | json (status : Nat) (body : Payload)
  | panic (msg : String)
  deriving DecidableEq

/-- The variables captured by the goroutine of step 4. -/
structure StoreTask where
  userID : String
  cvHash : String
  cvContent : String
  analysis : String
  deriving DecidableEq

/-- The calls a request makes outside the handler, in program order. -/
inductive Effect where
  | lookup (userID cvHash : String)
  | print (line : String)
  | generate (req : ChatCompletionRequest)
  | go (task : StoreTask)
  deriving DecidableEq

structure Result where
  reply : Reply
  effects : List Effect
  deriving DecidableEq

/-- The call `c.ShouldBindJSON(&req)`: decoding, absent fields left at the zero
value, then the `required` check on `CVContent`. -/
def ShouldBindJSON : RequestBody → Except String AnalyzeRequest
  | .malformed err => .error err
  | .object cvContent prompt =>
    let req : AnalyzeRequest := { CVContent := cvContent.getD "", Prompt := prompt.getD "" }
    if req.CVContent = "" then
      .error "Key: 'AnalyzeRequest.CVContent' Error:Field validation for 'CVContent' failed on the 'required' tag"
    else .ok req

/-- The line printed when the cache lookup returns an error. -/
def cacheErrorLog : Option String → List Effect
  | some err => [.print ("Error checking cache: " ++ err ++ "\n")]
  | none => []

/-- The method `HandleAnalyzeCV`. -/
def HandleAnalyzeCV (env : Env) (supabaseSvc : SupabaseService) (openaiSvc : OpenAIService)
    (c : Context) : Result :=
  match ShouldBindJSON c.body with
  | .error err => ⟨.json 400 (.H [("error", err)]), []⟩
  | .ok req =>
    let userID := c.userID.getD ""
    if userID = "" then
      ⟨.json 401 (.H [("error", "User ID not found in context")]), []⟩
    else
      let cvHash := env.sha256Hex req.CVContent
      let got := GetCachedAnalysis env supabaseSvc userID cvHash
      let checked := Effect.lookup userID cvHash :: cacheErrorLog got.2
      match got.1 with
      | some cached =>
        ⟨.json 200 (.analysis
            { Analysis := cached.Analysis, FromCache := true,
              CachedAt := env.timeFormat cached.CreatedAt RFC3339,
              Filename := cached.Filename, Error := "" }),
          checked⟩
      | none =>
        let called := checked ++ [.generate (chatRequest req.CVContent req.Prompt)]
        match AnalyzeCV openaiSvc req.CVContent req.Prompt with
        | .err err =>
          ⟨.json 500 (.H [("error", "Failed to generate analysis"), ("details", err)]), called⟩
        | .panic msg => ⟨.panic msg, called⟩
        | .ok analysis =>
          ⟨.json 200 (.analysis
              { Analysis := analysis, FromCache := false,
                CachedAt := "", Filename := "", Error := "" }),
            called ++ [.go ⟨userID, cvHash, req.CVContent, analysis⟩]⟩

/-- The body of the goroutine (`analyze.go`, lines 72-78), run at time `now`: the
rows of the table afterwards and the lines it prints. -/
def runStoreTask (env : Env) (supabaseSvc : SupabaseService) (db : InsertReply) (now : Time)
    (t : StoreTask) : List CVAnalysis × List String :=
  let filename := "CV-" ++ env.timeFormat now "2006-01-02"
  let stored := StoreAnalysis supabaseSvc db t.userID t.cvHash t.cvContent filename t.analysis
  match stored.1.2 with
  | some err => (stored.2, ["Error storing analysis: " ++ err ++ "\n"])
  | none => (stored.2, [])

/-- The table once the goroutines a request has started have run, each at time `now` against
a store answering with `db`; `supabaseSvc` is the table before. -/
def tableAfter (env : Env) (supabaseSvc : SupabaseService) (db : InsertReply) (now : Time)
    (effects : List Effect) : List CVAnalysis :=
  effects.foldl
    (fun rows e =>
      match e with
      | .go t => (runStoreTask env ⟨rows, supabaseSvc.execErr⟩ db now t).1
      | _ => rows)
    supabaseSvc.rows

/-! ## middleware/auth.go, main.go -/

/-- The call `c.AbortWithStatusJSON(http.StatusUnauthorized, gin.H{"error": msg})`:
the rest of the chain is not run. -/
def abortUnauthorized (msg : String) : Result :=
  ⟨.json 401 (.H [("error", msg)]), []⟩

/-- The handler `AuthMiddleware()` returns; `next` is the rest of the chain, run by `c.Next()`. -/
def AuthMiddleware (env : Env) (next : Context → Result) (c : Context) : Result :=
  let authHeader := c.Authorization
  if authHeader = "" then abortUnauthorized "Authorization header required"
  else
    let parts := Split authHeader ' '
    if parts.length ≠ 2 ∨ parts.getD 0 "" ≠ "Bearer" then
      abortUnauthorized "Invalid authorization header format"
    else
      let token := parts.getD 1 ""
      match extractUserIDFromJWT env token with
      | .error _ => abortUnauthorized "Invalid token"
      | .ok userID => next { c with userID := some userID }

/-- The route `POST /analyze-cv` of `main.go`: `AuthMiddleware`, then `HandleAnalyzeCV`,
on a fresh context. -/
def analyzeCVRoute (env : Env) (supabaseSvc : SupabaseService) (openaiSvc : OpenAIService)
    (authorization : String) (body : RequestBody) : Result :=
  AuthMiddleware env (HandleAnalyzeCV env supabaseSvc openaiSvc)
    { Authorization := authorization, body := body, userID := none }

/-! ## A concrete environment

Used to evaluate the model on closed inputs. -/

/-- The value of a hexadecimal digit. -/
def hexDigit (c : Char) : Option Nat :=
  if '0' ≤ c ∧ c ≤ '9' then some (c.toNat - 48)
  else if 'a' ≤ c ∧ c ≤ 'f' then some (c.toNat - 87)
  else if 'A' ≤ c ∧ c ≤ 'F' then some (c.toNat - 55)
  else none

/-- Reading a value back from a query string: `+` is a space and `%xy` is the character with
the hexadecimal code `xy`; anything else stands for itself. -/
def percentDecodeChars : List Char → List Char
  | [] => []
  | c :: cs =>
    if c = '+' then ' ' :: percentDecodeChars cs
    else
      match c, cs with
      | '%', a :: b :: rest =>
        match hexDigit a, hexDigit b with
        | some x, some y => Char.ofNat (16 * x + y) :: percentDecodeChars rest
        | _, _ => '%' :: percentDecodeChars (a :: b :: rest)
      | c, cs => c :: percentDecodeChars cs

/-- The string version of `percentDecodeChars`. -/
def percentDecode (s : String) : String :=
  String.mk (percentDecodeChars s.data)

/-- An environment that knows the encoding of the JSON text of a few claims objects and of
`null`, a tagging fingerprint, a date format that prints the number of seconds, and a store that
reads filter operands by percent-decoding. -/
def demoEnv : Env where
  base64RawURLDecode := fun s =>
    if s = "eyJzdWIiOiJ1MSJ9" then .ok [123, 34, 115, 117, 98, 34, 58, 34, 117, 49, 34, 125]
    else if s = "eyJzdWIiOiIlNzUxIn0" then
      .ok [123, 34, 115, 117, 98, 34, 58, 34, 37, 55, 53, 49, 34, 125]
    else if s = "eyJzdWIiOjd9" then .ok [123, 34, 115, 117, 98, 34, 58, 55, 125]
    else if s = "bnVsbA" then .ok [110, 117, 108, 108]
    else if s = "e30" then .ok [123, 125]
    else .error "illegal base64 data"
  jsonUnmarshal := fun b =>
    if b = [123, 34, 115, 117, 98, 34, 58, 34, 117, 49, 34, 125] then .ok [("sub", .string "u1")]
    else if b = [123, 34, 115, 117, 98, 34, 58, 34, 37, 55, 53, 49, 34, 125] then
      .ok [("sub", .string "%751")]
    else if b = [123, 34, 115, 117, 98, 34, 58, 55, 125] then .ok [("sub", .number "7")]
    else if b = [110, 117, 108, 108] then .ok []
    else if b = [123, 125] then .ok []
    else .error "invalid character"
  sha256Hex := fun s => "sha256:" ++ s
  timeFormat := fun t layout => layout ++ "@" ++ toString t
  eqOperand := percentDecode

/-- A chat backend that answers every request with one choice. -/
def demoOpenAI : OpenAIService where
  client := fun _ => .ok [{ Role := "assistant", Content := "generated" }]

/-- A chat backend that fails. -/
def downOpenAI : OpenAIService where
  client := fun _ => .error "status code: 503"

/-- A chat backend whose single choice repeats the user message of the request. -/
def echoOpenAI : OpenAIService where
  client := fun x => .ok (x.Messages.drop 1)

/-- A row held for subject `u1` and the fingerprint of the document `cv`. -/
def demoRow : CVAnalysis :=
  { ID := "1", UserID := "u1", CVHash := "sha256:cv", CVContent := "cv",
    Filename := "CV-2024-01-01", Analysis := "stored", CreatedAt := 5, UpdatedAt := 5 }

/-- A row with the same fingerprint, held for subject `u2`. -/
def otherRow : CVAnalysis :=
  { ID := "2", UserID := "u2", CVHash := "sha256:cv", CVContent := "cv",
    Filename := "CV-2024-02-02", Analysis := "stored for u2", CreatedAt := 9, UpdatedAt := 9 }

/-- A row held for the subject `a+b`. -/
def plusRow : CVAnalysis :=
  { ID := "3", UserID := "a+b", CVHash := "sha256:cv", CVContent := "cv",
    Filename := "CV-2024-03-03", Analysis := "stored for a+b", CreatedAt := 11, UpdatedAt := 11 }

/-- A store reply that assigns the generated columns and returns the written row. -/
def demoInsert : InsertReply :=
  { ID := "7", CreatedAt := 40, UpdatedAt := 40, returnsRow := true }

/-! ## Splitting -/

theorem splitChars_ne_nil (sep : Char) (l : List Char) : splitChars sep l ≠ [] := by
  induction l with
  | nil => simp [splitChars]
  | cons c cs ih =>
    unfold splitChars
    split_ifs
    · simp
    · split <;> simp

theorem splitChars_append_sep (sep : Char) (x y : List Char) :
    splitChars sep (x ++ sep :: y) = splitChars sep x ++ splitChars sep y := by
  induction x with
  | nil => simp [splitChars]
  | cons c cs ih =>
    by_cases hc : c = sep
    · simp [splitChars, hc, ih]
    · have hne := splitChars_ne_nil sep cs
      cases hs : splitChars sep cs with
      | nil => exact absurd hs hne
      | cons w ws => simp [splitChars, hc, ih, hs]

theorem splitChars_of_not_mem (sep : Char) (l : List Char) (h : sep ∉ l) :
    splitChars sep l = [l] := by
  induction l with
  | nil => simp [splitChars]
  | cons c cs ih =>
    have hc : c ≠ sep := fun e => h (by simp [e])
    have hcs : sep ∉ cs := fun e => h (by simp [e])
    simp [splitChars, hc, ih hcs]

theorem splitChars_length_one (sep : Char) (l : List Char)
    (h : (splitChars sep l).length = 1) : splitChars sep l = [l] := by
  induction l with
  | nil => simp [splitChars]
  | cons c cs ih =>
    by_cases hc : c = sep
    · have hne := splitChars_ne_nil sep cs
      simp [splitChars, hc] at h
      exact absurd h hne
    · cases hs : splitChars sep cs with
      | nil => exact absurd hs (splitChars_ne_nil sep cs)
      | cons w ws =>
        simp [splitChars, hc, hs] at h ⊢
        subst h
        have := ih (by simp [hs])
        simp [hs] at this
        exact ⟨this, rfl⟩

/-- A token `h.p.s` with dot-free `h` and `s` splits into `h`, the pieces of `p`, and `s`. -/
theorem Split_token (h p s : String) (hh : '.' ∉ h.data) (hs : '.' ∉ s.data) :
    Split (h ++ "." ++ p ++ "." ++ s) '.' = h :: (Split p '.' ++ [s]) := by
  have e : (h ++ "." ++ p ++ "." ++ s).data = h.data ++ '.' :: (p.data ++ '.' :: s.data) := by
    simp [String.data_append]
  simp [Split, e, splitChars_append_sep, splitChars_of_not_mem _ _ hh,
    splitChars_of_not_mem _ _ hs]

/-- The value of `extractUserIDFromJWT` on `h.p.s` is a function of `p`. -/
theorem extractUserIDFromJWT_token (env : Env) (h p s : String)
    (hh : '.' ∉ h.data) (hs : '.' ∉ s.data) :
    extractUserIDFromJWT env (h ++ "." ++ p ++ "." ++ s) =
      if (Split p '.').length = 1 then subOfPayload env p else .error ErrNoCookie := by
  unfold extractUserIDFromJWT
  rw [Split_token h p s hh hs]
  by_cases h1 : (Split p '.').length = 1
  · have h1c : (splitChars '.' p.data).length = 1 := by simpa [Split] using h1
    have hp : Split p '.' = [p] := by
      simp [Split, splitChars_length_one _ _ h1c]
    simp [hp]
  · have : ¬ ((Split p '.').length + 1 + 1 = 3) := by omega
    simp [h1, this]

/-! ## Bearer-identity extraction -/

/-- C3: a request whose `Authorization` header is empty, or does not split at the space into
exactly `Bearer` and a token, or whose token does not split at `.` into exactly three segments,
is answered 401 by `AuthMiddleware` whatever the rest of the chain is; the route does not reach
`HandleAnalyzeCV`: no cache lookup, no generator call, no effect at all. -/
theorem AuthMiddleware_rejects_malformed (env : Env) (authorization : String)
    (h : authorization = "" ∨
      (∀ token, Split authorization ' ' ≠ ["Bearer", token]) ∨
      (∃ token, Split authorization ' ' = ["Bearer", token] ∧ (Split token '.').length ≠ 3)) :
    ∃ msg,
      (∀ (next : Context → Result) (body : RequestBody) (userID : Option String),
        AuthMiddleware env next ⟨authorization, body, userID⟩ =
          ⟨.json 401 (.H [("error", msg)]), []⟩) ∧
      (∀ (supabaseSvc : SupabaseService) (openaiSvc : OpenAIService) (body : RequestBody),
        analyzeCVRoute env supabaseSvc openaiSvc authorization body =
          ⟨.json 401 (.H [("error", msg)]), []⟩) := by
  by_cases h0 : authorization = ""
  · refine ⟨"Authorization header required", ?_, ?_⟩ <;> intros <;>
      simp [analyzeCVRoute, AuthMiddleware, abortUnauthorized, h0]
  · rcases h with h | h | ⟨token, hsp, hlen⟩
    · exact absurd h h0
    · have hbad : (Split authorization ' ').length ≠ 2 ∨
          (Split authorization ' ').getD 0 "" ≠ "Bearer" := by
        by_contra hc
        push_neg at hc
        obtain ⟨hl, hb⟩ := hc
        match hp : Split authorization ' ', hl, hb with
        | [a, b], _, hb =>
          simp at hb
          exact h b (by rw [hp, hb])
      refine ⟨"Invalid authorization header format", ?_, ?_⟩ <;> intros <;>
        simp only [analyzeCVRoute, AuthMiddleware, abortUnauthorized, h0, if_false, if_pos hbad]
    · have hex : extractUserIDFromJWT env token = .error ErrNoCookie := by
        simp [extractUserIDFromJWT, hlen]
      refine ⟨"Invalid token", ?_, ?_⟩ <;> intros <;>
        simp [analyzeCVRoute, AuthMiddleware, abortUnauthorized, h0, hsp, hex]

/-- A header with a one-segment token is rejected before the handler. -/
theorem AuthMiddleware_rejects_malformed_witness :
    ("Bearer abc.def" = "" ∨
      (∀ token, Split "Bearer abc.def" ' ' ≠ ["Bearer", token]) ∨
      (∃ token, Split "Bearer abc.def" ' ' = ["Bearer", token] ∧
        (Split token '.').length ≠ 3)) ∧
    ∃ msg,
      (∀ (next : Context → Result) (body : RequestBody) (userID : Option String),
        AuthMiddleware demoEnv next ⟨"Bearer abc.def", body, userID⟩ =
          ⟨.json 401 (.H [("error", msg)]), []⟩) ∧
      (∀ (supabaseSvc : SupabaseService) (openaiSvc : OpenAIService) (body : RequestBody),
        analyzeCVRoute demoEnv supabaseSvc openaiSvc "Bearer abc.def" body =
          ⟨.json 401 (.H [("error", msg)]), []⟩) :=
  have hyp : "Bearer abc.def" = "" ∨
      (∀ token, Split "Bearer abc.def" ' ' ≠ ["Bearer", token]) ∨
      (∃ token, Split "Bearer abc.def" ' ' = ["Bearer", token] ∧
        (Split token '.').length ≠ 3) :=
    Or.inr (Or.inr ⟨"abc.def", by decide, by decide⟩)
  ⟨hyp, AuthMiddleware_rejects_malformed demoEnv "Bearer abc.def" hyp⟩

/-- C4: the signature is not verified. For dot-free `h`, `h'`, `s`, `s'` and any payload segment
`p`, the tokens `h.p.s` and `h'.p.s'` give the same result: the same error, or the same subject. -/
theorem extractUserIDFromJWT_payload_only (env : Env) (h h' s s' p : String)
    (hh : '.' ∉ h.data) (hh' : '.' ∉ h'.data) (hs : '.' ∉ s.data) (hs' : '.' ∉ s'.data) :
    extractUserIDFromJWT env (h ++ "." ++ p ++ "." ++ s) =
      extractUserIDFromJWT env (h' ++ "." ++ p ++ "." ++ s') := by
  rw [extractUserIDFromJWT_token env h p s hh hs, extractUserIDFromJWT_token env h' p s' hh' hs']

/-- Two tokens with one payload, different headers and signatures: one result. -/
theorem extractUserIDFromJWT_payload_only_witness :
    ('.' ∉ "hdr".data ∧ '.' ∉ "".data ∧ '.' ∉ "good-signature".data ∧ '.' ∉ "forged".data) ∧
    extractUserIDFromJWT demoEnv ("hdr" ++ "." ++ "eyJzdWIiOiJ1MSJ9" ++ "." ++ "good-signature") =
      extractUserIDFromJWT demoEnv ("" ++ "." ++ "eyJzdWIiOiJ1MSJ9" ++ "." ++ "forged") :=
  ⟨⟨by decide, by decide, by decide, by decide⟩,
    extractUserIDFromJWT_payload_only demoEnv "hdr" "" "good-signature" "forged"
      "eyJzdWIiOiJ1MSJ9" (by decide) (by decide) (by decide) (by decide)⟩

/-- C5: on a three-segment token, an error of the base64url decoding of the payload segment or
of its JSON decoding is returned; when the payload decodes to the mapping `m`, the result is the
value of `m["sub"]` if that is a string, and an error if the key is absent or holds a value of
another kind. -/
theorem extractUserIDFromJWT_sub (env : Env) (tokenString h p s : String)
    (hsplit : Split tokenString '.' = [h, p, s]) :
    (∀ e, env.base64RawURLDecode p = .error e →
      extractUserIDFromJWT env tokenString = .error e) ∧
    (∀ bytes e, env.base64RawURLDecode p = .ok bytes → env.jsonUnmarshal bytes = .error e →
      extractUserIDFromJWT env tokenString = .error e) ∧
    (∀ bytes m, env.base64RawURLDecode p = .ok bytes → env.jsonUnmarshal bytes = .ok m →
      (∀ sub, m.lookup "sub" = some (.string sub) →
        extractUserIDFromJWT env tokenString = .ok sub) ∧
      (m.lookup "sub" = none → extractUserIDFromJWT env tokenString = .error ErrNoCookie) ∧
      (∀ v, m.lookup "sub" = some v → (∀ sub, v ≠ .string sub) →
        extractUserIDFromJWT env tokenString = .error ErrNoCookie)) := by
  have hx : extractUserIDFromJWT env tokenString = subOfPayload env p := by
    simp [extractUserIDFromJWT, hsplit]
  rw [hx]
  refine ⟨?_, ?_, ?_⟩
  · intro e he
    simp [subOfPayload, he]
  · intro bytes e hb he
    simp [subOfPayload, hb, he]
  · intro bytes m hb hm
    refine ⟨?_, ?_, ?_⟩
    · intro sub hsub
      simp [subOfPayload, hb, hm, hsub]
    · intro hnone
      simp [subOfPayload, hb, hm, hnone]
    · intro v hv hns
      cases v with
      | string sub => exact absurd rfl (hns sub)
      | _ => simp [subOfPayload, hb, hm, hv]

/-- A token whose payload is the encoding of a claims object with the string subject `u1`. -/
theorem extractUserIDFromJWT_sub_witness :
    Split "hdr.eyJzdWIiOiJ1MSJ9.sig" '.' = ["hdr", "eyJzdWIiOiJ1MSJ9", "sig"] ∧
    extractUserIDFromJWT demoEnv "hdr.eyJzdWIiOiJ1MSJ9.sig" = .ok "u1" :=
  ⟨by decide,
    ((extractUserIDFromJWT_sub demoEnv "hdr.eyJzdWIiOiJ1MSJ9.sig" "hdr" "eyJzdWIiOiJ1MSJ9" "sig"
      (by decide)).2.2 [123, 34, 115, 117, 98, 34, 58, 34, 117, 49, 34, 125]
      [("sub", .string "u1")] rfl rfl).1 "u1" rfl⟩

/-! ## The handler -/

/-- A lookup that finds no matching row and meets no store error is the absent result. -/
theorem GetCachedAnalysis_miss (env : Env) (rows : List CVAnalysis) (userID cvHash : String)
    (h : selectEq env rows userID cvHash = []) :
    GetCachedAnalysis env ⟨rows, none⟩ userID cvHash = (none, none) := by
  simp [GetCachedAnalysis, h]

/-- A lookup that meets a store error returns no record and that error. -/
theorem GetCachedAnalysis_error (env : Env) (rows : List CVAnalysis)
    (err userID cvHash : String) :
    GetCachedAnalysis env ⟨rows, some err⟩ userID cvHash = (none, some err) := by
  simp [GetCachedAnalysis]

/-- A successful lookup returns the first matching row. -/
theorem GetCachedAnalysis_hit (env : Env) (rows : List CVAnalysis) (userID cvHash : String)
    (r : CVAnalysis) (rs : List CVAnalysis) (h : selectEq env rows userID cvHash = r :: rs) :
    GetCachedAnalysis env ⟨rows, none⟩ userID cvHash = (some r, none) := by
  simp [GetCachedAnalysis, h]

/-- C6: a request whose `cvContent` is missing or the empty string is answered 400 by
`HandleAnalyzeCV` with no effect at all (no cache lookup, no generator call, no goroutine that
would persist a record), whatever the subject in the context; so is it on the route, for a
header that passes `AuthMiddleware`. -/
theorem HandleAnalyzeCV_empty_document (env : Env) (supabaseSvc : SupabaseService)
    (openaiSvc : OpenAIService) (cvContent prompt : Option String)
    (h : cvContent = none ∨ cvContent = some "") :
    ∃ err,
      (∀ (authorization : String) (userID : Option String),
        HandleAnalyzeCV env supabaseSvc openaiSvc
            ⟨authorization, .object cvContent prompt, userID⟩ =
          ⟨.json 400 (.H [("error", err)]), []⟩) ∧
      (∀ (authorization token userID : String),
        Split authorization ' ' = ["Bearer", token] →
        extractUserIDFromJWT env token = .ok userID →
        analyzeCVRoute env supabaseSvc openaiSvc authorization (.object cvContent prompt) =
          ⟨.json 400 (.H [("error", err)]), []⟩) := by
  refine ⟨"Key: 'AnalyzeRequest.CVContent' Error:Field validation for 'CVContent' failed on the 'required' tag", ?_, ?_⟩
  · intro authorization userID
    rcases h with h | h <;> simp [HandleAnalyzeCV, ShouldBindJSON, h]
  · intro authorization token userID hsp hex
    have hne : authorization ≠ "" := by
      intro e
      have hnil : Split "" ' ' = [""] := by decide
      rw [e, hnil] at hsp
      simp at hsp
    rcases h with h | h <;>
      simp [analyzeCVRoute, AuthMiddleware, hne, hsp, hex, HandleAnalyzeCV, ShouldBindJSON, h]

/-- An authenticated request with the empty document: 400 and nothing else. -/
theorem HandleAnalyzeCV_empty_document_witness :
    ((some "" : Option String) = none ∨ (some "" : Option String) = some "") ∧
    analyzeCVRoute demoEnv ⟨[demoRow], none⟩ demoOpenAI "Bearer hdr.eyJzdWIiOiJ1MSJ9.sig"
        (.object (some "") (some "p")) =
      ⟨.json 400 (.H [("error", "Key: 'AnalyzeRequest.CVContent' Error:Field validation for 'CVContent' failed on the 'required' tag")]), []⟩ :=
  ⟨Or.inr rfl, by
    obtain ⟨err, h1, h2⟩ := HandleAnalyzeCV_empty_document demoEnv ⟨[demoRow], none⟩ demoOpenAI
      (some "") (some "p") (Or.inr rfl)
    have e1 := h1 "" none
    have e2 := h2 "Bearer hdr.eyJzdWIiOiJ1MSJ9.sig" "hdr.eyJzdWIiOiJ1MSJ9.sig" "u1"
      (by decide) rfl
    rw [e2, ← e1]
    decide⟩

/-- No goroutine among the effects leaves the table as it was. -/
theorem tableAfter_of_no_go (env : Env) (supabaseSvc : SupabaseService) (db : InsertReply)
    (now : Time) (effects : List Effect) (h : ∀ t, Effect.go t ∉ effects) :
    tableAfter env supabaseSvc db now effects = supabaseSvc.rows := by
  unfold tableAfter
  generalize supabaseSvc.rows = rows
  induction effects generalizing rows with
  | nil => rfl
  | cons e es ih =>
    have hes : ∀ t, Effect.go t ∉ es := fun t ht => h t (List.mem_cons_of_mem _ ht)
    cases e with
    | go t => exact absurd (List.mem_cons_self _ _) (h t)
    | lookup u c => simpa using ih hes rows
    | print l => simpa using ih hes rows
    | generate x => simpa using ih hes rows

/-- C7: for a request with a non-empty document and a non-empty subject in the context, when
the cache lookup yields no record and the generator returns an error, `HandleAnalyzeCV` answers
500 with the generation-failure body and starts no goroutine: `StoreAnalysis` is not called and
the table afterwards is the table before. -/
theorem HandleAnalyzeCV_generation_failure (env : Env) (supabaseSvc : SupabaseService)
    (openaiSvc : OpenAIService) (authorization cvContent userID err : String)
    (prompt : Option String) (hcv : cvContent ≠ "") (hu : userID ≠ "")
    (hmiss : (GetCachedAnalysis env supabaseSvc userID (env.sha256Hex cvContent)).1 = none)
    (hgen : AnalyzeCV openaiSvc cvContent (prompt.getD "") = .err err) :
    (HandleAnalyzeCV env supabaseSvc openaiSvc
        ⟨authorization, .object (some cvContent) prompt, some userID⟩).reply =
      .json 500 (.H [("error", "Failed to generate analysis"), ("details", err)]) ∧
    (∀ t, Effect.go t ∉ (HandleAnalyzeCV env supabaseSvc openaiSvc
        ⟨authorization, .object (some cvContent) prompt, some userID⟩).effects) ∧
    (∀ (db : InsertReply) (now : Time),
      tableAfter env supabaseSvc db now (HandleAnalyzeCV env supabaseSvc openaiSvc
        ⟨authorization, .object (some cvContent) prompt, some userID⟩).effects =
        supabaseSvc.rows) := by
  have hgo : ∀ t, Effect.go t ∉ (HandleAnalyzeCV env supabaseSvc openaiSvc
      ⟨authorization, .object (some cvContent) prompt, some userID⟩).effects := by
    intro t
    cases he : (GetCachedAnalysis env supabaseSvc userID (env.sha256Hex cvContent)).2 <;>
      simp [HandleAnalyzeCV, ShouldBindJSON, hcv, hu, hmiss, hgen, cacheErrorLog, he]
  refine ⟨?_, hgo, fun db now => tableAfter_of_no_go env supabaseSvc db now _ hgo⟩
  simp [HandleAnalyzeCV, ShouldBindJSON, hcv, hu, hmiss, hgen]

/-- A miss on an empty table with a failing backend: 500, and the table stays empty. -/
theorem HandleAnalyzeCV_generation_failure_witness :
    ("cv" ≠ "" ∧ "u1" ≠ "" ∧
      (GetCachedAnalysis demoEnv ⟨[otherRow], none⟩ "u1" (demoEnv.sha256Hex "cv")).1 = none ∧
      AnalyzeCV downOpenAI "cv" ((none : Option String).getD "") = .err "status code: 503") ∧
    (HandleAnalyzeCV demoEnv ⟨[otherRow], none⟩ downOpenAI
        ⟨"", .object (some "cv") none, some "u1"⟩).reply =
      .json 500 (.H [("error", "Failed to generate analysis"),
        ("details", "status code: 503")]) :=
  ⟨⟨by decide, by decide, by decide, by decide⟩,
    (HandleAnalyzeCV_generation_failure demoEnv ⟨[otherRow], none⟩ downOpenAI "" "cv" "u1"
      "status code: 503" none (by decide) (by decide) (by decide) (by decide)).1⟩

/-- The handler on a request with a non-empty document and a non-empty subject, by the result
of the lookup and of the generator. -/
theorem HandleAnalyzeCV_valid (env : Env) (supabaseSvc : SupabaseService)
    (openaiSvc : OpenAIService) (authorization cvContent userID : String)
    (prompt : Option String) (hcv : cvContent ≠ "") (hu : userID ≠ "") :
    HandleAnalyzeCV env supabaseSvc openaiSvc
        ⟨authorization, .object (some cvContent) prompt, some userID⟩ =
      match (GetCachedAnalysis env supabaseSvc userID (env.sha256Hex cvContent)).1 with
      | some cached =>
        ⟨.json 200 (.analysis
            { Analysis := cached.Analysis, FromCache := true,
              CachedAt := env.timeFormat cached.CreatedAt RFC3339,
              Filename := cached.Filename, Error := "" }),
          Effect.lookup userID (env.sha256Hex cvContent) ::
            cacheErrorLog (GetCachedAnalysis env supabaseSvc userID (env.sha256Hex cvContent)).2⟩
      | none =>
        match AnalyzeCV openaiSvc cvContent (prompt.getD "") with
        | .err err =>
          ⟨.json 500 (.H [("error", "Failed to generate analysis"), ("details", err)]),
            Effect.lookup userID (env.sha256Hex cvContent) ::
              (cacheErrorLog (GetCachedAnalysis env supabaseSvc userID (env.sha256Hex cvContent)).2 ++
                [.generate (chatRequest cvContent (prompt.getD ""))])⟩
        | .panic msg =>
          ⟨.panic msg,
            Effect.lookup userID (env.sha256Hex cvContent) ::
              (cacheErrorLog (GetCachedAnalysis env supabaseSvc userID (env.sha256Hex cvContent)).2 ++
                [.generate (chatRequest cvContent (prompt.getD ""))])⟩
        | .ok analysis =>
          ⟨.json 200 (.analysis
              { Analysis := analysis, FromCache := false,
                CachedAt := "", Filename := "", Error := "" }),
            Effect.lookup userID (env.sha256Hex cvContent) ::
              (cacheErrorLog (GetCachedAnalysis env supabaseSvc userID (env.sha256Hex cvContent)).2 ++
                [.generate (chatRequest cvContent (prompt.getD "")),
                  .go ⟨userID, env.sha256Hex cvContent, cvContent, analysis⟩])⟩ := by
  simp only [HandleAnalyzeCV, ShouldBindJSON, Option.getD_some, if_neg hcv, if_neg hu]
  cases (GetCachedAnalysis env supabaseSvc userID (env.sha256Hex cvContent)).1 with
  | some cached => rfl
  | none =>
    cases AnalyzeCV openaiSvc cvContent (prompt.getD "") <;> simp

/-- C8: a store failure makes `GetCachedAnalysis` return no record and the error, which is
not the absent result (no record, no error) of a lookup without a match. For a request with a
non-empty document and a non-empty subject, `HandleAnalyzeCV` then replies as on a genuine miss
and has the same effects after the one log line; when the generator returns a text it answers
200 with that text and `FromCache = false`, and starts the goroutine that persists it. -/
theorem HandleAnalyzeCV_store_error_as_miss (env : Env) (openaiSvc : OpenAIService)
    (rows rows' : List CVAnalysis) (authorization cvContent userID storeErr : String)
    (prompt : Option String) (hcv : cvContent ≠ "") (hu : userID ≠ "")
    (hmiss : selectEq env rows' userID (env.sha256Hex cvContent) = []) :
    GetCachedAnalysis env ⟨rows, some storeErr⟩ userID (env.sha256Hex cvContent) =
      (none, some storeErr) ∧
    GetCachedAnalysis env ⟨rows', none⟩ userID (env.sha256Hex cvContent) = (none, none) ∧
    ((none, some storeErr) : Option CVAnalysis × Option String) ≠ (none, none) ∧
    (HandleAnalyzeCV env ⟨rows, some storeErr⟩ openaiSvc
        ⟨authorization, .object (some cvContent) prompt, some userID⟩).reply =
      (HandleAnalyzeCV env ⟨rows', none⟩ openaiSvc
        ⟨authorization, .object (some cvContent) prompt, some userID⟩).reply ∧
    (∃ rest,
      (HandleAnalyzeCV env ⟨rows', none⟩ openaiSvc
          ⟨authorization, .object (some cvContent) prompt, some userID⟩).effects =
        .lookup userID (env.sha256Hex cvContent) ::
          .generate (chatRequest cvContent (prompt.getD "")) :: rest ∧
      (HandleAnalyzeCV env ⟨rows, some storeErr⟩ openaiSvc
          ⟨authorization, .object (some cvContent) prompt, some userID⟩).effects =
        .lookup userID (env.sha256Hex cvContent) ::
          .print ("Error checking cache: " ++ storeErr ++ "\n") ::
          .generate (chatRequest cvContent (prompt.getD "")) :: rest) ∧
    (∀ analysis, AnalyzeCV openaiSvc cvContent (prompt.getD "") = .ok analysis →
      HandleAnalyzeCV env ⟨rows, some storeErr⟩ openaiSvc
          ⟨authorization, .object (some cvContent) prompt, some userID⟩ =
        ⟨.json 200 (.analysis
            { Analysis := analysis, FromCache := false,
              CachedAt := "", Filename := "", Error := "" }),
          [.lookup userID (env.sha256Hex cvContent),
            .print ("Error checking cache: " ++ storeErr ++ "\n"),
            .generate (chatRequest cvContent (prompt.getD "")),
            .go ⟨userID, env.sha256Hex cvContent, cvContent, analysis⟩]⟩) := by
  have he := GetCachedAnalysis_error env rows storeErr userID (env.sha256Hex cvContent)
  have hm := GetCachedAnalysis_miss env rows' userID (env.sha256Hex cvContent) hmiss
  rw [HandleAnalyzeCV_valid env _ openaiSvc authorization cvContent userID prompt hcv hu,
    HandleAnalyzeCV_valid env _ openaiSvc authorization cvContent userID prompt hcv hu, he, hm]
  refine ⟨rfl, rfl, by simp, ?_, ?_, ?_⟩
  · cases AnalyzeCV openaiSvc cvContent (prompt.getD "") <;> rfl
  · cases AnalyzeCV openaiSvc cvContent (prompt.getD "") <;> simp [cacheErrorLog]
  · intro analysis hgen
    simp [hgen, cacheErrorLog]

/-- A store that times out on the lookup: the request is served by the generator. -/
theorem HandleAnalyzeCV_store_error_as_miss_witness :
    ("cv" ≠ "" ∧ "u1" ≠ "" ∧ selectEq demoEnv [otherRow] "u1" (demoEnv.sha256Hex "cv") = []) ∧
    (HandleAnalyzeCV demoEnv ⟨[demoRow], some "timeout"⟩ demoOpenAI
        ⟨"", .object (some "cv") none, some "u1"⟩).reply =
      (HandleAnalyzeCV demoEnv ⟨[otherRow], none⟩ demoOpenAI
        ⟨"", .object (some "cv") none, some "u1"⟩).reply :=
  ⟨⟨by decide, by decide, by decide⟩,
    (HandleAnalyzeCV_store_error_as_miss demoEnv demoOpenAI [demoRow] [otherRow] "" "cv" "u1"
      "timeout" none (by decide) (by decide) (by decide)).2.2.2.1⟩

/-- The goroutine leaves the table `StoreAnalysis` leaves. -/
theorem runStoreTask_rows (env : Env) (supabaseSvc : SupabaseService) (db : InsertReply)
    (now : Time) (t : StoreTask) :
    (runStoreTask env supabaseSvc db now t).1 =
      (StoreAnalysis supabaseSvc db t.userID t.cvHash t.cvContent
        ("CV-" ++ env.timeFormat now "2006-01-02") t.analysis).2 := by
  unfold runStoreTask
  dsimp only
  split <;> rfl

/-- When `StoreAnalysis` returns no error, the table has gained the row it was given, with the
generated columns of the store. -/
theorem StoreAnalysis_succeeded (rows : List CVAnalysis) (insertErr : Option String)
    (db : InsertReply) (userID cvHash cvContent filename analysis : String)
    (h : (StoreAnalysis ⟨rows, insertErr⟩ db userID cvHash cvContent filename analysis).1.2 =
      none) :
    (StoreAnalysis ⟨rows, insertErr⟩ db userID cvHash cvContent filename analysis).2 =
      rows ++ [{ ID := db.ID, UserID := userID, CVHash := cvHash, CVContent := cvContent,
                 Filename := filename, Analysis := analysis,
                 CreatedAt := db.CreatedAt, UpdatedAt := db.UpdatedAt }] := by
  cases insertErr with
  | some e => simp [StoreAnalysis] at h
  | none =>
    cases hr : db.returnsRow <;> simp [StoreAnalysis, storedRow, hr] at h ⊢

/-- The table after a request that generated: what its one goroutine leaves. -/
theorem tableAfter_generated (env : Env) (supabaseSvc : SupabaseService) (db : InsertReply)
    (now : Time) (userID cvHash : String) (e : Option String) (x : ChatCompletionRequest)
    (t : StoreTask) :
    tableAfter env supabaseSvc db now
        (Effect.lookup userID cvHash :: (cacheErrorLog e ++ [.generate x, .go t])) =
      (runStoreTask env supabaseSvc db now t).1 := by
  cases e <;> simp [tableAfter, cacheErrorLog]

/-- The record a lookup returns is a row of the table whose two columns equal the operands the
store read from the filters; `GetCachedAnalysis` does not compare it with its arguments. -/
theorem GetCachedAnalysis_some (env : Env) (s : SupabaseService) (userID cvHash : String)
    (r : CVAnalysis) (h : (GetCachedAnalysis env s userID cvHash).1 = some r) :
    r ∈ s.rows ∧ r.UserID = env.eqOperand userID ∧ r.CVHash = env.eqOperand cvHash := by
  unfold GetCachedAnalysis at h
  cases he : s.execErr with
  | some err => simp [he] at h
  | none =>
    cases hs : selectEq env s.rows userID cvHash with
    | nil => simp [he, hs] at h
    | cons r0 rs =>
      simp [he, hs] at h
      subst h
      have hm : r0 ∈ selectEq env s.rows userID cvHash := by simp [hs]
      simpa [selectEq, List.mem_filter] using hm

/-- C2 fails on the code at the subject `%751`: on a table whose only row belongs to `u1`, the
store reads the filter operand `%751` as `u1`, `GetCachedAnalysis` returns that row without
comparing its `UserID` with the subject asked for, and the route answers a token whose payload
names the subject `%751` with the analysis stored for `u1`, `FromCache = true`, without a call
of the generator. -/
theorem GetCachedAnalysis_serves_other_subject :
    demoEnv.eqOperand "%751" = "u1" ∧
    GetCachedAnalysis demoEnv ⟨[demoRow], none⟩ "%751" (demoEnv.sha256Hex "cv") =
      (some demoRow, none) ∧
    demoRow.UserID = "u1" ∧ demoRow.UserID ≠ "%751" ∧
    extractUserIDFromJWT demoEnv ".eyJzdWIiOiIlNzUxIn0.forged" = .ok "%751" ∧
    analyzeCVRoute demoEnv ⟨[demoRow], none⟩ downOpenAI "Bearer .eyJzdWIiOiIlNzUxIn0.forged"
        (.object (some "cv") none) =
      ⟨.json 200 (.analysis
          { Analysis := "stored", FromCache := true,
            CachedAt := "2006-01-02T15:04:05Z07:00@5",
            Filename := "CV-2024-01-01", Error := "" }),
        [.lookup "%751" "sha256:cv"]⟩ := by
  refine ⟨by decide, by decide, by decide, by decide, rfl, by decide⟩

/-- A table with no row for a key the store reads literally yields no record, whether or not
the lookup fails. -/
theorem GetCachedAnalysis_none_of_no_record (env : Env) (rows : List CVAnalysis)
    (execErr : Option String) (userID cvHash : String)
    (hu : env.eqOperand userID = userID) (hh : env.eqOperand cvHash = cvHash)
    (h : ∀ r ∈ rows, ¬ (r.UserID = userID ∧ r.CVHash = cvHash)) :
    (GetCachedAnalysis env ⟨rows, execErr⟩ userID cvHash).1 = none := by
  have hs : selectEq env rows userID cvHash = [] := by
    simp only [selectEq, List.filter_eq_nil_iff, hu, hh]
    intro r hr
    simpa using h r hr
  cases execErr <;> simp [GetCachedAnalysis, hs]

/-- C9, amended: for a non-empty subject `S` and a non-empty document `D` such that the store
reads `S` and the fingerprint of `D` literally from the lookup filters, and a table holding a
record for `S` and that fingerprint, when the cache lookup meets no store error,
`HandleAnalyzeCV` gives one and the same result for every prompt and every generator: 200 with
the stored `Analysis`, `FromCache = true`, the stored `CreatedAt` and `Filename` of one such
record, and the lookup as its only effect, so the generator is not invoked. -/
theorem HandleAnalyzeCV_hit_ignores_prompt (env : Env) (rows : List CVAnalysis) (S D : String)
    (hS : S ≠ "") (hD : D ≠ "")
    (hSlit : env.eqOperand S = S)
    (hHlit : env.eqOperand (env.sha256Hex D) = env.sha256Hex D)
    (hrec : ∃ r ∈ rows, r.UserID = S ∧ r.CVHash = env.sha256Hex D) :
    ∃ r ∈ rows, r.UserID = S ∧ r.CVHash = env.sha256Hex D ∧
      ∀ (openaiSvc : OpenAIService) (authorization : String) (prompt : Option String),
        HandleAnalyzeCV env ⟨rows, none⟩ openaiSvc
            ⟨authorization, .object (some D) prompt, some S⟩ =
          ⟨.json 200 (.analysis
              { Analysis := r.Analysis, FromCache := true,
                CachedAt := env.timeFormat r.CreatedAt RFC3339,
                Filename := r.Filename, Error := "" }),
            [.lookup S (env.sha256Hex D)]⟩ := by
  obtain ⟨r0, hr0, hu0, hh0⟩ := hrec
  have hmem : r0 ∈ selectEq env rows S (env.sha256Hex D) := by
    simp [selectEq, List.mem_filter, hr0, hu0, hh0, hSlit, hHlit]
  cases hs : selectEq env rows S (env.sha256Hex D) with
  | nil => simp [hs] at hmem
  | cons r rs =>
    have hr : r ∈ selectEq env rows S (env.sha256Hex D) := by simp [hs]
    have hr' : r ∈ rows ∧ r.UserID = S ∧ r.CVHash = env.sha256Hex D := by
      simpa [selectEq, List.mem_filter, hSlit, hHlit] using hr
    refine ⟨r, hr'.1, hr'.2.1, hr'.2.2, ?_⟩
    intro openaiSvc authorization prompt
    rw [HandleAnalyzeCV_valid env _ openaiSvc authorization D S prompt hD hS,
      GetCachedAnalysis_hit env rows S (env.sha256Hex D) r rs hs]
    rfl

/-- A stored analysis is served under two different prompts. -/
theorem HandleAnalyzeCV_hit_ignores_prompt_witness :
    ("u1" ≠ "" ∧ "cv" ≠ "" ∧ demoEnv.eqOperand "u1" = "u1" ∧
      demoEnv.eqOperand (demoEnv.sha256Hex "cv") = demoEnv.sha256Hex "cv" ∧
      ∃ r ∈ [otherRow, demoRow], r.UserID = "u1" ∧ r.CVHash = demoEnv.sha256Hex "cv") ∧
    ∃ r ∈ [otherRow, demoRow], r.UserID = "u1" ∧ r.CVHash = demoEnv.sha256Hex "cv" ∧
      ∀ (openaiSvc : OpenAIService) (authorization : String) (prompt : Option String),
        HandleAnalyzeCV demoEnv ⟨[otherRow, demoRow], none⟩ openaiSvc
            ⟨authorization, .object (some "cv") prompt, some "u1"⟩ =
          ⟨.json 200 (.analysis
              { Analysis := r.Analysis, FromCache := true,
                CachedAt := demoEnv.timeFormat r.CreatedAt RFC3339,
                Filename := r.Filename, Error := "" }),
            [.lookup "u1" (demoEnv.sha256Hex "cv")]⟩ :=
  have hrec : ∃ r ∈ [otherRow, demoRow], r.UserID = "u1" ∧ r.CVHash = demoEnv.sha256Hex "cv" :=
    ⟨demoRow, by decide, by decide, by decide⟩
  ⟨⟨by decide, by decide, by decide, by decide, hrec⟩,
    HandleAnalyzeCV_hit_ignores_prompt demoEnv [otherRow, demoRow] "u1" "cv"
      (by decide) (by decide) (by decide) (by decide) hrec⟩

/-- C9 as stated fails: with a record held for (`u1`, fingerprint of `cv`), a lookup that
meets a store error sends both requests to the generator, and the two prompts get different
replies; a record held for the fingerprint of the empty document, or for the empty subject,
is not served: the request is answered 400, respectively 401; and a record held for the
subject `a+b` is not found by a lookup without store error, the store reading the filter
operand `a+b` as `a b`, so the generator is invoked. -/
theorem hit_ignores_prompt_counterexample :
    (∃ r ∈ [demoRow], r.UserID = "u1" ∧ r.CVHash = demoEnv.sha256Hex "cv") ∧
    HandleAnalyzeCV demoEnv ⟨[demoRow], some "timeout"⟩ echoOpenAI
        ⟨"", .object (some "cv") (some "p1"), some "u1"⟩ =
      ⟨.json 200 (.analysis
          { Analysis := "p1", FromCache := false, CachedAt := "", Filename := "", Error := "" }),
        [.lookup "u1" "sha256:cv", .print "Error checking cache: timeout\n",
          .generate (chatRequest "cv" "p1"), .go ⟨"u1", "sha256:cv", "cv", "p1"⟩]⟩ ∧
    HandleAnalyzeCV demoEnv ⟨[demoRow], some "timeout"⟩ echoOpenAI
        ⟨"", .object (some "cv") (some "p2"), some "u1"⟩ =
      ⟨.json 200 (.analysis
          { Analysis := "p2", FromCache := false, CachedAt := "", Filename := "", Error := "" }),
        [.lookup "u1" "sha256:cv", .print "Error checking cache: timeout\n",
          .generate (chatRequest "cv" "p2"), .go ⟨"u1", "sha256:cv", "cv", "p2"⟩]⟩ ∧
    (∃ r ∈ [{ demoRow with CVHash := "sha256:", CVContent := "" }],
      r.UserID = "u1" ∧ r.CVHash = demoEnv.sha256Hex "") ∧
    (HandleAnalyzeCV demoEnv ⟨[{ demoRow with CVHash := "sha256:", CVContent := "" }], none⟩
        echoOpenAI ⟨"", .object (some "") (some "p1"), some "u1"⟩).reply =
      .json 400 (.H [("error", "Key: 'AnalyzeRequest.CVContent' Error:Field validation for 'CVContent' failed on the 'required' tag")]) ∧
    (∃ r ∈ [{ demoRow with UserID := "" }],
      r.UserID = "" ∧ r.CVHash = demoEnv.sha256Hex "cv") ∧
    (HandleAnalyzeCV demoEnv ⟨[{ demoRow with UserID := "" }], none⟩
        echoOpenAI ⟨"", .object (some "cv") (some "p1"), some ""⟩).reply =
      .json 401 (.H [("error", "User ID not found in context")]) ∧
    (∃ r ∈ [plusRow], r.UserID = "a+b" ∧ r.CVHash = demoEnv.sha256Hex "cv") ∧
    HandleAnalyzeCV demoEnv ⟨[plusRow], none⟩ echoOpenAI
        ⟨"", .object (some "cv") (some "p1"), some "a+b"⟩ =
      ⟨.json 200 (.analysis
          { Analysis := "p1", FromCache := false, CachedAt := "", Filename := "", Error := "" }),
        [.lookup "a+b" "sha256:cv",
          .generate (chatRequest "cv" "p1"), .go ⟨"a+b", "sha256:cv", "cv", "p1"⟩]⟩ := by
  refine ⟨⟨demoRow, by decide, by decide, by decide⟩, rfl, rfl,
    ⟨_, List.mem_singleton.mpr rfl, by decide, by decide⟩, by decide,
    ⟨_, List.mem_singleton.mpr rfl, by decide, by decide⟩, by decide,
    ⟨plusRow, by decide, by decide, by decide⟩, rfl⟩

/-- C1, amended: for a non-empty subject `S` and a non-empty document `D` such that the store
reads `S` and the fingerprint of `D` literally from the lookup filters, any prompt and a table
with no record for `S` and that fingerprint, if the generator returns the text `a` then the
first request is answered 200 with `Analysis = a` and `FromCache = false`; and once the
`StoreAnalysis` call of its goroutine has returned without error, an identical second request
whose cache lookup meets no store error is answered 200 with `FromCache = true` and
`Analysis = a`, with the lookup as its only effect, whatever the generator would return. -/
theorem HandleAnalyzeCV_miss_then_hit (env : Env) (rows : List CVAnalysis)
    (openaiSvc openaiSvc' : OpenAIService) (authorization S D a : String)
    (prompt : Option String) (lookupErr insertErr : Option String) (db : InsertReply)
    (now : Time) (hS : S ≠ "") (hD : D ≠ "")
    (hSlit : env.eqOperand S = S)
    (hHlit : env.eqOperand (env.sha256Hex D) = env.sha256Hex D)
    (hnone : ∀ r ∈ rows, ¬ (r.UserID = S ∧ r.CVHash = env.sha256Hex D))
    (hgen : AnalyzeCV openaiSvc D (prompt.getD "") = .ok a)
    (hstored : (StoreAnalysis ⟨rows, insertErr⟩ db S (env.sha256Hex D) D
      ("CV-" ++ env.timeFormat now "2006-01-02") a).1.2 = none) :
    (HandleAnalyzeCV env ⟨rows, lookupErr⟩ openaiSvc
        ⟨authorization, .object (some D) prompt, some S⟩).reply =
      .json 200 (.analysis
        { Analysis := a, FromCache := false, CachedAt := "", Filename := "", Error := "" }) ∧
    HandleAnalyzeCV env
        ⟨tableAfter env ⟨rows, insertErr⟩ db now
          (HandleAnalyzeCV env ⟨rows, lookupErr⟩ openaiSvc
            ⟨authorization, .object (some D) prompt, some S⟩).effects, none⟩
        openaiSvc' ⟨authorization, .object (some D) prompt, some S⟩ =
      ⟨.json 200 (.analysis
          { Analysis := a, FromCache := true,
            CachedAt := env.timeFormat db.CreatedAt RFC3339,
            Filename := "CV-" ++ env.timeFormat now "2006-01-02", Error := "" }),
        [.lookup S (env.sha256Hex D)]⟩ := by
  have hmiss := GetCachedAnalysis_none_of_no_record env rows lookupErr S (env.sha256Hex D)
    hSlit hHlit hnone
  have hfirst := HandleAnalyzeCV_valid env ⟨rows, lookupErr⟩ openaiSvc authorization D S
    prompt hD hS
  rw [hmiss, hgen] at hfirst
  rw [hfirst]
  refine ⟨rfl, ?_⟩
  have hsel : selectEq env rows S (env.sha256Hex D) = [] := by
    simp only [selectEq, List.filter_eq_nil_iff, hSlit, hHlit]
    intro r hr
    simpa using hnone r hr
  have htab := StoreAnalysis_succeeded rows insertErr db S (env.sha256Hex D) D
    ("CV-" ++ env.timeFormat now "2006-01-02") a hstored
  simp only [tableAfter_generated, runStoreTask_rows, htab]
  rw [HandleAnalyzeCV_valid env _ openaiSvc' authorization D S prompt hD hS]
  have hhit : GetCachedAnalysis env
      ⟨rows ++ [{ ID := db.ID, UserID := S, CVHash := env.sha256Hex D, CVContent := D,
                  Filename := "CV-" ++ env.timeFormat now "2006-01-02", Analysis := a,
                  CreatedAt := db.CreatedAt, UpdatedAt := db.UpdatedAt }], none⟩
      S (env.sha256Hex D) =
      (some { ID := db.ID, UserID := S, CVHash := env.sha256Hex D, CVContent := D,
              Filename := "CV-" ++ env.timeFormat now "2006-01-02", Analysis := a,
              CreatedAt := db.CreatedAt, UpdatedAt := db.UpdatedAt }, none) := by
    apply GetCachedAnalysis_hit env _ _ _ _ []
    unfold selectEq at hsel ⊢
    rw [List.filter_append, hsel]
    simp [hSlit, hHlit]
  rw [hhit]
  rfl

/-- On a table without a row for the key: generated once, then served from the cache. -/
theorem HandleAnalyzeCV_miss_then_hit_witness :
    ("u1" ≠ "" ∧ "cv" ≠ "" ∧ demoEnv.eqOperand "u1" = "u1" ∧
      demoEnv.eqOperand (demoEnv.sha256Hex "cv") = demoEnv.sha256Hex "cv" ∧
      (∀ r ∈ [otherRow], ¬ (r.UserID = "u1" ∧ r.CVHash = demoEnv.sha256Hex "cv")) ∧
      AnalyzeCV demoOpenAI "cv" ((none : Option String).getD "") = .ok "generated" ∧
      (StoreAnalysis ⟨[otherRow], none⟩ demoInsert "u1" (demoEnv.sha256Hex "cv") "cv"
        ("CV-" ++ demoEnv.timeFormat 3 "2006-01-02") "generated").1.2 = none) ∧
    (HandleAnalyzeCV demoEnv ⟨[otherRow], none⟩ demoOpenAI
        ⟨"", .object (some "cv") none, some "u1"⟩).reply =
      .json 200 (.analysis
        { Analysis := "generated", FromCache := false,
          CachedAt := "", Filename := "", Error := "" }) ∧
    HandleAnalyzeCV demoEnv
        ⟨tableAfter demoEnv ⟨[otherRow], none⟩ demoInsert 3
          (HandleAnalyzeCV demoEnv ⟨[otherRow], none⟩ demoOpenAI
            ⟨"", .object (some "cv") none, some "u1"⟩).effects, none⟩
        downOpenAI ⟨"", .object (some "cv") none, some "u1"⟩ =
      ⟨.json 200 (.analysis
          { Analysis := "generated", FromCache := true,
            CachedAt := demoEnv.timeFormat demoInsert.CreatedAt RFC3339,
            Filename := "CV-" ++ demoEnv.timeFormat 3 "2006-01-02", Error := "" }),
        [.lookup "u1" (demoEnv.sha256Hex "cv")]⟩ :=
  ⟨⟨by decide, by decide, by decide, by decide, by decide, by decide, by decide⟩,
    HandleAnalyzeCV_miss_then_hit demoEnv [otherRow] demoOpenAI downOpenAI "" "u1" "cv"
      "generated" none none none demoInsert 3 (by decide) (by decide) (by decide) (by decide)
      (by decide) (by decide) (by decide)⟩

/-- C1 as stated fails: on an empty table the first request for (`u1`, `cv`) is generated and its
`StoreAnalysis` call returns the stored row without error, yet the identical second request,
whose cache lookup meets a store error, is answered with `FromCache = false` after a second
call of the generator; and for the subject `a+b` the row is stored under `a+b` while the store
reads the filter operand of the second lookup as `a b`, so that lookup, without any store
error, finds nothing and the generator is called again. -/
theorem miss_then_hit_counterexample :
    (HandleAnalyzeCV demoEnv ⟨[], none⟩ demoOpenAI
        ⟨"", .object (some "cv") none, some "u1"⟩).reply =
      .json 200 (.analysis
        { Analysis := "generated", FromCache := false,
          CachedAt := "", Filename := "", Error := "" }) ∧
    (StoreAnalysis ⟨[], none⟩ demoInsert "u1" (demoEnv.sha256Hex "cv") "cv"
      ("CV-" ++ demoEnv.timeFormat 3 "2006-01-02") "generated").1.2 = none ∧
    tableAfter demoEnv ⟨[], none⟩ demoInsert 3
        (HandleAnalyzeCV demoEnv ⟨[], none⟩ demoOpenAI
          ⟨"", .object (some "cv") none, some "u1"⟩).effects =
      [{ ID := "7", UserID := "u1", CVHash := "sha256:cv", CVContent := "cv",
         Filename := "CV-2006-01-02@3", Analysis := "generated",
         CreatedAt := 40, UpdatedAt := 40 }] ∧
    HandleAnalyzeCV demoEnv
        ⟨tableAfter demoEnv ⟨[], none⟩ demoInsert 3
          (HandleAnalyzeCV demoEnv ⟨[], none⟩ demoOpenAI
            ⟨"", .object (some "cv") none, some "u1"⟩).effects, some "timeout"⟩
        demoOpenAI ⟨"", .object (some "cv") none, some "u1"⟩ =
      ⟨.json 200 (.analysis
          { Analysis := "generated", FromCache := false,
            CachedAt := "", Filename := "", Error := "" }),
        [.lookup "u1" "sha256:cv", .print "Error checking cache: timeout\n",
          .generate (chatRequest "cv" ""),
          .go ⟨"u1", "sha256:cv", "cv", "generated"⟩]⟩ ∧
    (HandleAnalyzeCV demoEnv ⟨[], none⟩ demoOpenAI
        ⟨"", .object (some "cv") none, some "a+b"⟩).reply =
      .json 200 (.analysis
        { Analysis := "generated", FromCache := false,
          CachedAt := "", Filename := "", Error := "" }) ∧
    (StoreAnalysis ⟨[], none⟩ demoInsert "a+b" (demoEnv.sha256Hex "cv") "cv"
      ("CV-" ++ demoEnv.timeFormat 3 "2006-01-02") "generated").1.2 = none ∧
    tableAfter demoEnv ⟨[], none⟩ demoInsert 3
        (HandleAnalyzeCV demoEnv ⟨[], none⟩ demoOpenAI
          ⟨"", .object (some "cv") none, some "a+b"⟩).effects =
      [{ ID := "7", UserID := "a+b", CVHash := "sha256:cv", CVContent := "cv",
         Filename := "CV-2006-01-02@3", Analysis := "generated",
         CreatedAt := 40, UpdatedAt := 40 }] ∧
    HandleAnalyzeCV demoEnv
        ⟨tableAfter demoEnv ⟨[], none⟩ demoInsert 3
          (HandleAnalyzeCV demoEnv ⟨[], none⟩ demoOpenAI
            ⟨"", .object (some "cv") none, some "a+b"⟩).effects, none⟩
        demoOpenAI ⟨"", .object (some "cv") none, some "a+b"⟩ =
      ⟨.json 200 (.analysis
          { Analysis := "generated", FromCache := false,
            CachedAt := "", Filename := "", Error := "" }),
        [.lookup "a+b" "sha256:cv", .generate (chatRequest "cv" ""),
          .go ⟨"a+b", "sha256:cv", "cv", "generated"⟩]⟩ := by
  refine ⟨by decide, by decide, by decide, rfl, by decide, by decide, by decide, rfl⟩

/-- C10: `AnalyzeCV` consults the chat backend at the request `chatRequest` and nowhere else,
returning the error of that call or the content of its first choice. For a non-empty
`userPrompt` that request is the same for any two documents, its user message being exactly
`userPrompt`, so a backend that repeats the user message it receives makes `AnalyzeCV` return
`userPrompt` for either document; for the empty prompt the user message is the default framing
sentence followed by the document. -/
theorem chatRequest_prompt_replaces_document (D1 D2 userPrompt : String)
    (hp : userPrompt ≠ "") :
    (∀ (D P : String) (s s' : OpenAIService),
      s.client (chatRequest D P) = s'.client (chatRequest D P) →
      AnalyzeCV s D P = AnalyzeCV s' D P) ∧
    (∀ (D P : String) (s : OpenAIService) (e : String),
      s.client (chatRequest D P) = .error e → AnalyzeCV s D P = .err e) ∧
    (∀ (D P : String) (s : OpenAIService) (m : ChatCompletionMessage)
        (ms : List ChatCompletionMessage),
      s.client (chatRequest D P) = .ok (m :: ms) → AnalyzeCV s D P = .ok m.Content) ∧
    (∀ (D P : String) (f : ChatCompletionRequest → String),
      AnalyzeCV ⟨fun x => .ok [{ Role := "assistant", Content := f x }]⟩ D P =
        .ok (f (chatRequest D P))) ∧
    chatRequest D1 userPrompt = chatRequest D2 userPrompt ∧
    (chatRequest D1 userPrompt).Messages =
      [{ Role := "system", Content := SystemPrompt },
        { Role := "user", Content := userPrompt }] ∧
    (∀ openaiSvc : OpenAIService,
      AnalyzeCV openaiSvc D1 userPrompt = AnalyzeCV openaiSvc D2 userPrompt) ∧
    AnalyzeCV echoOpenAI D1 userPrompt = .ok userPrompt ∧
    AnalyzeCV echoOpenAI D2 userPrompt = .ok userPrompt ∧
    (chatRequest D1 "").Messages =
      [{ Role := "system", Content := SystemPrompt },
        { Role := "user",
          Content :=
            "Please analyze the following CV and provide detailed career guidance:\n\n"
              ++ D1 }] ∧
    AnalyzeCV echoOpenAI D1 "" =
      .ok ("Please analyze the following CV and provide detailed career guidance:\n\n"
        ++ D1) := by
  have h : ∀ D, chatRequest D userPrompt =
      { Model := DefaultModel,
        Messages := [{ Role := "system", Content := SystemPrompt },
          { Role := "user", Content := userPrompt }],
        Temperature := "0.7", MaxTokens := 2000 } := by
    intro D
    simp [chatRequest, userMessage, hp]
  refine ⟨?_, ?_, ?_, ?_, by rw [h D1, h D2], by rw [h D1], ?_, ?_, ?_, ?_, ?_⟩
  · intro D P s s' hss
    simp only [AnalyzeCV, hss]
  · intro D P s e he
    simp [AnalyzeCV, he]
  · intro D P s m ms hm
    simp [AnalyzeCV, hm]
  · intro D P f
    simp [AnalyzeCV]
  · intro openaiSvc
    simp only [AnalyzeCV, h D1, h D2]
  · simp [AnalyzeCV, echoOpenAI, h D1]
  · simp [AnalyzeCV, echoOpenAI, h D2]
  · simp [chatRequest, userMessage]
  · simp [AnalyzeCV, echoOpenAI, chatRequest, userMessage]

/-- Two documents under one prompt give one request, which carries neither document, and the
repeating backend returns the prompt. -/
theorem chatRequest_prompt_replaces_document_witness :
    "Summarise in one line" ≠ "" ∧
    chatRequest "first cv" "Summarise in one line" =
      chatRequest "second cv" "Summarise in one line" ∧
    AnalyzeCV echoOpenAI "first cv" "Summarise in one line" = .ok "Summarise in one line" :=
  ⟨by decide,
    (chatRequest_prompt_replaces_document "first cv" "second cv" "Summarise in one line"
      (by decide)).2.2.2.2.1,
    (chatRequest_prompt_replaces_document "first cv" "second cv" "Summarise in one line"
      (by decide)).2.2.2.2.2.2.2.1⟩

end Backend
